import Mathlib

/-!
Verification of allocation-policy and synchronization logic of the minigbm
hbm/dmabuf/dri glue layers.  Machine integers are modelled as Nat with
explicit reductions modulo 2 ^ 32 / 2 ^ 64 where overflow matters; bitmask
operations use Nat bitwise operators.
-/

namespace Minigbm

/-! ### Use-flag bit constants (minigbm drv.h, external header; upstream bit positions) -/

def BO_USE_SCANOUT : Nat := 1 <<< 0
def BO_USE_CURSOR : Nat := 1 <<< 1
def BO_USE_RENDERING : Nat := 1 <<< 2
def BO_USE_LINEAR : Nat := 1 <<< 4
def BO_USE_TEXTURE : Nat := 1 <<< 5
def BO_USE_CAMERA_WRITE : Nat := 1 <<< 6
def BO_USE_CAMERA_READ : Nat := 1 <<< 7
def BO_USE_PROTECTED : Nat := 1 <<< 8
def BO_USE_SW_READ_OFTEN : Nat := 1 <<< 9
def BO_USE_SW_READ_RARELY : Nat := 1 <<< 10
def BO_USE_SW_WRITE_OFTEN : Nat := 1 <<< 11
def BO_USE_SW_WRITE_RARELY : Nat := 1 <<< 12
def BO_USE_HW_VIDEO_DECODER : Nat := 1 <<< 13
def BO_USE_HW_VIDEO_ENCODER : Nat := 1 <<< 14
def BO_USE_FRONT_RENDERING : Nat := 1 <<< 16
def BO_USE_GPU_DATA_BUFFER : Nat := 1 <<< 18
def BO_USE_SENSOR_DIRECT_DATA : Nat := 1 <<< 19

def BO_USE_SW_MASK : Nat :=
  BO_USE_SW_READ_OFTEN ||| BO_USE_SW_READ_RARELY |||
  BO_USE_SW_WRITE_OFTEN ||| BO_USE_SW_WRITE_RARELY ||| BO_USE_FRONT_RENDERING

def BO_MAP_READ : Nat := 1
def BO_MAP_WRITE : Nat := 2

/-! ### hbm memory-type flags (hbm_minigbm.h, external header; distinct bits) -/

def HBM_MEMORY_TYPE_LOCAL : Nat := 1
def HBM_MEMORY_TYPE_CACHED : Nat := 2
def HBM_MEMORY_TYPE_COHERENT : Nat := 4
def HBM_MEMORY_TYPE_MAPPABLE : Nat := 8

/-! ### Format modifier constants (drm_fourcc.h) -/

def DRM_FORMAT_MOD_LINEAR : Nat := 0
def DRM_FORMAT_MOD_INVALID : Nat := 0x00ffffffffffffff

/-! ### hbm.c: usage predicates -/

def testFlags (v mask : Nat) : Bool := v &&& mask != 0

def use_overlay (f : Nat) : Bool := testFlags f (BO_USE_SCANOUT ||| BO_USE_CURSOR)

def use_gpu (f : Nat) : Bool :=
  testFlags f (BO_USE_RENDERING ||| BO_USE_TEXTURE ||| BO_USE_GPU_DATA_BUFFER)

def use_sw_read (f : Nat) : Bool :=
  testFlags f (BO_USE_SW_READ_OFTEN ||| BO_USE_SW_READ_RARELY)

def use_sw_write (f : Nat) : Bool :=
  testFlags f (BO_USE_SW_WRITE_OFTEN ||| BO_USE_SW_WRITE_RARELY)

def use_sw (f : Nat) : Bool := use_sw_read f || use_sw_write f

def use_sw_often (f : Nat) : Bool :=
  testFlags f (BO_USE_SW_READ_OFTEN ||| BO_USE_SW_WRITE_OFTEN)

/-- hbm.c prefer_map: choose between MAP (direct mapping) and COPY (staging). -/
def prefer_map (f : Nat) : Bool :=
  if use_overlay f then use_sw_often f && !use_sw_read f
  else if use_gpu f then use_sw_often f
  else true

/-- Modelled from the spec: the frequency rule as the spec states it, namely
often CPU access combined with overlay usage, or any case lacking overlay and
GPU usage, prefers direct mapping; GPU usage with only rarely CPU access
prefers staging.  Used only to compare the spec wording with prefer_map. -/
def prefer_map_spec_rule (f : Nat) : Bool :=
  if use_overlay f then use_sw_often f
  else if use_gpu f then use_sw_often f
  else true

/-! ### hbm.c: pick_memory_type -/

structure MtConstraints where
  required : Nat
  disallowed : Nat
  preferred : Nat
  useStaging : Bool
deriving Repr, DecidableEq

/-- The required/disallowed/preferred flags and staging decision computed by
the first half of hbm.c pick_memory_type. -/
def pick_constraints (modifier use_flags : Nat) : MtConstraints :=
  let req0 : Nat := if use_overlay use_flags then HBM_MEMORY_TYPE_LOCAL else 0
  let dis : Nat := if use_overlay use_flags then HBM_MEMORY_TYPE_CACHED else 0
  let c : MtConstraints :=
    if use_sw use_flags then
      if modifier == DRM_FORMAT_MOD_LINEAR && prefer_map use_flags then
        { required := req0 ||| HBM_MEMORY_TYPE_MAPPABLE, disallowed := dis,
          preferred := HBM_MEMORY_TYPE_CACHED, useStaging := false }
      else
        { required := req0, disallowed := dis,
          preferred := HBM_MEMORY_TYPE_LOCAL, useStaging := true }
    else
      { required := req0, disallowed := dis,
        preferred := HBM_MEMORY_TYPE_LOCAL, useStaging := false }
  if c.disallowed &&& c.preferred != 0 then
    { c with preferred := 0 }
  else c

/-- Filter applied to each enumerated memory type in the selection loop. -/
def mt_passes (required disallowed mt : Nat) : Bool :=
  mt &&& required == required && mt &&& disallowed == 0

/-- The selection loop of pick_memory_type.  best is the C int32_t best_mt,
initially -1; the loop checks (!best_mt), i.e. best = 0, before recording a
non-preferred candidate, reproducing the source exactly. -/
def pick_best (required disallowed preferred : Nat) : Int → List Nat → Int
  | best, [] => best
  | best, mt :: rest =>
    if ! mt_passes required disallowed mt then
      pick_best required disallowed preferred best rest
    else if mt &&& preferred != 0 then (mt : Int)
    else if best == 0 then
      if preferred == 0 then (mt : Int)
      else pick_best required disallowed preferred (mt : Int) rest
    else pick_best required disallowed preferred best rest

/-- hbm.c pick_memory_type: mts is the enumerated memory-type list returned by
get_memory_types; none models returning false. -/
def pick_memory_type (mts : List Nat) (modifier use_flags : Nat) : Option (Nat × Bool) :=
  let c := pick_constraints modifier use_flags
  let best := pick_best c.required c.disallowed c.preferred (-1) mts
  if best == -1 then none else some (best.toNat, c.useStaging)

/-! ### drm_fourcc format codes -/

def fourcc (a b c d : Nat) : Nat := a ||| (b <<< 8) ||| (c <<< 16) ||| (d <<< 24)

def DRM_FORMAT_INVALID : Nat := 0
def DRM_FORMAT_ARGB8888 : Nat := fourcc 65 82 50 52
def DRM_FORMAT_XRGB8888 : Nat := fourcc 88 82 50 52
def DRM_FORMAT_ABGR8888 : Nat := fourcc 65 66 50 52
def DRM_FORMAT_XBGR8888 : Nat := fourcc 88 66 50 52
def DRM_FORMAT_RGB565 : Nat := fourcc 82 71 49 54
def DRM_FORMAT_BGR565 : Nat := fourcc 66 71 49 54
def DRM_FORMAT_BGR888 : Nat := fourcc 66 71 50 52
def DRM_FORMAT_NV12 : Nat := fourcc 78 86 49 50
def DRM_FORMAT_YVU420 : Nat := fourcc 89 86 49 50
def DRM_FORMAT_YVU420_ANDROID : Nat := fourcc 57 57 57 55
def DRM_FORMAT_FLEX_IMPLEMENTATION_DEFINED : Nat := fourcc 57 57 57 56
def DRM_FORMAT_FLEX_YCbCr_420_888 : Nat := fourcc 57 57 57 57
def DRM_FORMAT_R8 : Nat := fourcc 82 56 32 32

/-! ### dmabuf_internals.cpp: format/use-flag resolution -/

/-- dmabuf_resolve_format_and_use_flags: returns (out_format, out_use_flags). -/
def dmabuf_resolve_format_and_use_flags (format use_flags : Nat) : Nat × Nat :=
  let fmt :=
    if format = DRM_FORMAT_FLEX_IMPLEMENTATION_DEFINED then
      if use_flags &&& (BO_USE_CAMERA_READ ||| BO_USE_CAMERA_WRITE) != 0 then
        DRM_FORMAT_NV12
      else
        DRM_FORMAT_XBGR8888
    else if format = DRM_FORMAT_FLEX_YCbCr_420_888 then DRM_FORMAT_NV12
    else if format = DRM_FORMAT_BGR565 then DRM_FORMAT_RGB565
    else format
  (fmt, use_flags)

/-! ### dmabuf_internals.cpp: buffer creation -/

def supported_formats : List Nat :=
  [DRM_FORMAT_ARGB8888, DRM_FORMAT_XRGB8888, DRM_FORMAT_ABGR8888, DRM_FORMAT_XBGR8888,
   DRM_FORMAT_RGB565, DRM_FORMAT_BGR888, DRM_FORMAT_NV12, DRM_FORMAT_YVU420,
   DRM_FORMAT_YVU420_ANDROID, DRM_FORMAT_R8]

def is_format_supported (format : Nat) : Bool := supported_formats.contains format

/-- util.h ALIGN macro: round a up to a multiple of b. -/
def ALIGN (a b : Nat) : Nat := (a + b - 1) / b * b

/-- unmask64: check-and-clear of a bit group; returns (hit, new value).  The
C clear step value and-not mask is written value xor (value and mask), the
same function on bit vectors. -/
def unmask64 (value mask : Nat) : Bool × Nat :=
  if value &&& mask != 0 then (true, value ^^^ (value &&& mask)) else (false, value)

def U32 : Nat := 2 ^ 32
def U64 : Nat := 2 ^ 64

/-- Observable outcome of dmabuf_bo_create2.  err means the function returned
an error before reaching the DMA_HEAP_IOCTL_ALLOC provider call; testOnly
means it returned 0 before that call; alloc carries the heap choice (cma or
system), the stride, the size alignment and the requested allocation length
at the moment the provider call is issued. -/
inductive Create2Result
  | err (code : Int)
  | testOnly
  | alloc (heapCma : Bool) (stride : Nat) (sizeAlign : Nat) (len : Nat)
deriving Repr, DecidableEq

/-- l_use_flags after the SW-mask check-and-clear. -/
def create2_l1 (use_flags : Nat) : Nat := (unmask64 use_flags BO_USE_SW_MASK).2

/-- Whether the scanout clear hit. -/
def create2_scanHit (use_flags : Nat) : Bool :=
  (unmask64 (create2_l1 use_flags) BO_USE_SCANOUT).1

/-- l_use_flags after the scanout check-and-clear. -/
def create2_l2 (use_flags : Nat) : Nat :=
  (unmask64 (create2_l1 use_flags) BO_USE_SCANOUT).2

/-- Whether the camera-read/camera-write clear hit. -/
def create2_camHit (use_flags : Nat) : Bool :=
  (unmask64 (create2_l2 use_flags) (BO_USE_CAMERA_READ ||| BO_USE_CAMERA_WRITE)).1

/-- l_use_flags after the camera check-and-clear. -/
def create2_l3 (use_flags : Nat) : Nat :=
  (unmask64 (create2_l2 use_flags) (BO_USE_CAMERA_READ ||| BO_USE_CAMERA_WRITE)).2

/-- Whether the hw-video-decoder/encoder clear hit. -/
def create2_codecHit (use_flags : Nat) : Bool :=
  (unmask64 (create2_l3 use_flags) (BO_USE_HW_VIDEO_DECODER ||| BO_USE_HW_VIDEO_ENCODER)).1

/-- l_use_flags after the codec check-and-clear. -/
def create2_l4 (use_flags : Nat) : Nat :=
  (unmask64 (create2_l3 use_flags) (BO_USE_HW_VIDEO_DECODER ||| BO_USE_HW_VIDEO_ENCODER)).2

/-- l_use_flags after the cursor/texture/rendering check-and-clear: the
residual flags checked for emptiness. -/
def create2_l5 (use_flags : Nat) : Nat :=
  (unmask64 (create2_l4 use_flags) (BO_USE_CURSOR ||| BO_USE_TEXTURE ||| BO_USE_RENDERING)).2

/-- The stride after the camera and codec 32-byte alignments. -/
def create2_stride (stride0 use_flags : Nat) : Nat :=
  let s1 := if create2_camHit use_flags then ALIGN stride0 32 else stride0
  if create2_codecHit use_flags then ALIGN s1 32 else s1

/-- The size_align value: 4096 initially, replaced by the camera frame
formula when camera usage is present with height above one, then replaced by
4096 again when codec usage is present.  The camera formula is 32-bit
unsigned arithmetic, hence the reduction modulo 2 ^ 32. -/
def create2_sizeAlign (width height use_flags : Nat) : Nat :=
  let sa1 :=
    if create2_camHit use_flags && decide (1 < height) then
      ((ALIGN width 32 * ALIGN height 16 * 3) % U32) >>> 1
    else 4096
  if create2_codecHit use_flags then 4096 else sa1

/-- Whether the CMA heap is forced (scanout, camera or codec usage). -/
def create2_forceCma (use_flags : Nat) : Bool :=
  create2_scanHit use_flags || create2_camHit use_flags || create2_codecHit use_flags

/-- dmabuf_bo_create2.  drvOk models dmabuf_get_or_init_driver succeeding;
stride0 models drv_stride_from_format(format, width, 0) and totalSize models
bo->meta.total_size as computed by drv_bo_from_format (helpers outside this
repository, passed as parameters). -/
def dmabuf_bo_create2 (drvOk : Bool) (stride0 totalSize : Nat)
    (width height format use_flags : Nat) (testOnly : Bool) : Create2Result :=
  if is_format_supported format = false then .err (-22)
  else if drvOk = false then .err (-22)
  else if create2_l5 use_flags != 0 then .err (-22)
  else if testOnly then .testOnly
  else .alloc (create2_forceCma use_flags) (create2_stride stride0 use_flags)
      (create2_sizeAlign width height use_flags)
      (ALIGN totalSize (create2_sizeAlign width height use_flags))

/-- The union of every use-flag group dmabuf_bo_create2 recognizes and clears. -/
def CREATE2_RECOGNIZED_MASK : Nat :=
  BO_USE_SW_MASK ||| BO_USE_SCANOUT ||| BO_USE_CAMERA_READ ||| BO_USE_CAMERA_WRITE |||
  BO_USE_HW_VIDEO_DECODER ||| BO_USE_HW_VIDEO_ENCODER |||
  BO_USE_CURSOR ||| BO_USE_TEXTURE ||| BO_USE_RENDERING

/-! ### dmabuf_internals.cpp: import -/

structure ImportBo where
  privFds : Option (List Nat)
  num_planes : Nat
deriving Repr, DecidableEq

/-- dmabuf_bo_import: returns (ret, bo after the call, fds passed to dup (one
per plane, in order), fds closed).  The duplicated descriptors are stored in
the new private data; the originals are never closed. -/
def dmabuf_bo_import (bo : ImportBo) (dataFds : List Nat) : Int × ImportBo × List Nat × List Nat :=
  match bo.privFds with
  | some _ => (-22, bo, [], [])
  | none =>
    let planes := (List.range bo.num_planes).map fun p => dataFds.getD p 0
    (0, { bo with privFds := some planes }, planes, [])

/-! ### hbm.c: implicit-fence wait (wait_resource) -/

/-- One outcome of a poll(2) call on the implicit-fence dma-buf: ready models
ret > 0 carrying whether revents matched the requested events, timedOut
models ret = 0, failed models ret < 0 with the given errno. -/
inductive PollResult
  | ready (reventsMatch : Bool)
  | timedOut
  | failed (errno : Nat)
deriving Repr, DecidableEq

def EINTR : Nat := 4
def EAGAIN : Nat := 11

/-- The timeout constant passed to every poll call (const int timeout = -1). -/
def wait_poll_timeout : Int := -1

/-- The retry loop of wait_resource, driven by the environment list of poll
outcomes.  Returns the timeout argument used by each poll call actually
issued, and the result: some b when the function returned b, none when the
environment was exhausted while the loop was still retrying. -/
def wait_resource_run : List PollResult → List Int × Option Bool
  | [] => ([], none)
  | r :: rest =>
    match r with
    | .ready m => ([wait_poll_timeout], some m)
    | .timedOut => ([wait_poll_timeout], some false)
    | .failed e =>
      if e = EINTR || e = EAGAIN then
        let p := wait_resource_run rest
        (wait_poll_timeout :: p.1, p.2)
      else ([wait_poll_timeout], some false)

/-- hbm.c wait_resource: hasFence models implicit_fence_dmabuf >= 0. -/
def wait_resource (hasFence : Bool) (polls : List PollResult) : List Int × Option Bool :=
  if hasFence = false then ([], some true) else wait_resource_run polls

/-! ### hbm.c: map/unmap staging traffic (hbm_sync, dri_bo_map, dri_bo_unmap) -/

/-- Buffer traffic performed by the glue layer during a map/unmap cycle, in
program order.  Copies carry the rectangle extent used. -/
inductive MapEvent
  | copyRealToStaging (w h : Nat)
  | copyStagingToReal (w h : Nat)
  | flushReal
  | invalidateReal
  | unmapStaging
  | unmapReal
deriving Repr, DecidableEq

/-- hbm_sync on plane 0 with the full-extent rectangle used by dri_bo_map and
dri_bo_unmap: staging_size greater than zero means staging is active, flush
chooses the copy direction (staging to real on flush, real to staging on
invalidate).  waitOk is the outcome of wait_resource; on failure hbm_sync
returns before copying. -/
def hbm_sync_events (staging_size : Nat) (flush : Bool) (w h : Nat)
    (waitOk : Bool) : List MapEvent :=
  if waitOk = false then []
  else if staging_size = 0 then
    [if flush then .flushReal else .invalidateReal]
  else
    [if flush then .copyStagingToReal w h else .copyRealToStaging w h]

/-- dri_bo_map (hbm variant), success path: after mapping, a read-intended
access triggers hbm_sync with flush = false over the full buffer extent. -/
def dri_bo_map_events (staging_size map_flags w h : Nat) (waitOk : Bool) : List MapEvent :=
  if map_flags &&& BO_MAP_READ != 0 then
    hbm_sync_events staging_size false w h waitOk
  else []

/-- dri_bo_unmap (hbm variant): an access that included writes triggers
hbm_sync with flush = true, then hbm_unmap unmaps (staging when active,
otherwise the real bo). -/
def dri_bo_unmap_events (staging_size map_flags w h : Nat) (waitOk : Bool) : List MapEvent :=
  (if map_flags &&& BO_MAP_WRITE != 0 then
    hbm_sync_events staging_size true w h waitOk
  else []) ++
  (if staging_size = 0 then [.unmapReal] else [.unmapStaging])

/-! ### hbm.c: bo metadata (init_bo_metadata) and dri.c import metadata -/

structure BoMeta where
  total_size : Nat
  format_modifier : Nat
  num_planes : Nat
  offsets : List Nat
  strides : List Nat
  sizes : List Nat
deriving Repr, DecidableEq

/-- hbm.c init_bo_metadata: plane sizes are derived from the next plane's
offset (or the layout size for the last plane) with uint64 subtraction, then
stored in the uint32 sizes array. -/
def init_bo_metadata (size modifier : Nat) (offsets strides : List Nat) : BoMeta :=
  { total_size := size
    format_modifier := modifier
    num_planes := offsets.length
    offsets := offsets
    strides := strides
    sizes := (List.range offsets.length).map fun i =>
      let nxt := if i + 1 < offsets.length then offsets.getD (i + 1) 0 else size
      ((nxt + U64 - offsets.getD i 0) % U64) % U32 }

/-- dri.c import_into_minigbm, metadata part: offsets and strides are the
per-plane values queried from the DRI image, dmabufSize the lseek size of the
exported dma-buf.  Plane size differences are int arithmetic stored as
uint32; the last plane uses the 64-bit dma-buf size. -/
def import_into_minigbm_meta (modifier : Nat) (offsets strides : List Nat)
    (dmabufSize : Nat) : BoMeta :=
  { total_size := dmabufSize
    format_modifier := modifier
    num_planes := offsets.length
    offsets := offsets
    strides := strides
    sizes := (List.range offsets.length).map fun i =>
      if i + 1 < offsets.length then
        (offsets.getD (i + 1) 0 + U32 - offsets.getD i 0) % U32
      else
        ((dmabufSize + U64 - offsets.getD i 0) % U64) % U32 }

/-! ### hbm.c: create_resource staging layout -/

/-- The staging-layout loop of create_resource: strideF models
drv_stride_from_format (format, width, plane) and sizeF models
drv_size_from_format (format, stride, height, plane), the standard per-format
helpers outside this repository, passed as parameters.  Arguments: current
offset, current plane index, remaining planes; returns the per-plane offsets,
the per-plane strides and the final offset (staging_size).  The offset
accumulator is the uint32_t local of create_resource, so the addition
offset += size wraps modulo 2 ^ 32. -/
def staging_go (strideF : Nat → Nat → Nat → Nat) (sizeF : Nat → Nat → Nat → Nat → Nat)
    (fmt width height : Nat) : Nat → Nat → Nat → List Nat × List Nat × Nat
  | offset, _, 0 => ([], [], offset)
  | offset, plane, n + 1 =>
    let stride := strideF fmt width plane
    let size := sizeF fmt stride height plane
    let rest := staging_go strideF sizeF fmt width height ((offset + size) % U32) (plane + 1) n
    (offset :: rest.1, stride :: rest.2.1, rest.2.2)

structure StagingInfo where
  staging_offsets : List Nat
  staging_strides : List Nat
  staging_size : Nat
deriving Repr, DecidableEq

/-- The staging-layout block of create_resource: for DRM_FORMAT_INVALID the
staging size is the requested buffer byte length (extent.buffer.size) stored
into the uint32_t staging_size field; otherwise the standard per-plane layout
is accumulated from offset 0 in uint32_t arithmetic.  planeCount models
drv_num_planes_from_format (desc.format). -/
def create_resource_staging (strideF : Nat → Nat → Nat → Nat)
    (sizeF : Nat → Nat → Nat → Nat → Nat)
    (fmt extentBufSize width height planeCount : Nat) : StagingInfo :=
  if fmt = DRM_FORMAT_INVALID then
    { staging_offsets := [], staging_strides := [], staging_size := extentBufSize % U32 }
  else
    let r := staging_go strideF sizeF fmt width height 0 0 planeCount
    { staging_offsets := r.1, staging_strides := r.2.1, staging_size := r.2.2 }

/-- create_resource, the part relevant to staging: pick_memory_type decides
use_staging from the real layout's modifier; the staging layout itself is
computed without consulting the modifier.  none models failure of
pick_memory_type; some none means staging not selected; some (some info)
carries the staging layout. -/
def create_resource (strideF : Nat → Nat → Nat → Nat)
    (sizeF : Nat → Nat → Nat → Nat → Nat) (mts : List Nat)
    (modifier use_flags fmt extentBufSize width height planeCount : Nat) :
    Option (Option StagingInfo) :=
  match pick_memory_type mts modifier use_flags with
  | none => none
  | some (_, useStaging) =>
    if useStaging then
      some (some (create_resource_staging strideF sizeF fmt extentBufSize width height planeCount))
    else
      some none

/-! ### Bit-level helper lemmas -/

theorem land_eq_of_submask (a b c : Nat) (hab : a &&& b = b) (hcb : c &&& b = c) :
    a &&& c = c := by
  apply Nat.eq_of_testBit_eq
  intro i
  have h1 := congrArg (fun n => n.testBit i) hab
  have h2 := congrArg (fun n => n.testBit i) hcb
  simp only [Nat.testBit_land] at h1 h2 ⊢
  cases hc : c.testBit i <;> cases ha : a.testBit i <;> cases hb : b.testBit i <;> simp_all

theorem clear_preserves_disjoint (v m k : Nat) (hmk : m &&& k = 0) :
    (v ^^^ (v &&& m)) &&& k = v &&& k := by
  apply Nat.eq_of_testBit_eq
  intro i
  have h1 := congrArg (fun n => n.testBit i) hmk
  simp only [Nat.testBit_land, Nat.testBit_xor, Nat.zero_testBit] at h1 ⊢
  cases hv : v.testBit i <;> cases hm : m.testBit i <;> cases hk : k.testBit i <;> simp_all

theorem clear_chain (v a b : Nat) :
    (v ^^^ (v &&& a)) ^^^ ((v ^^^ (v &&& a)) &&& b) = v ^^^ (v &&& (a ||| b)) := by
  apply Nat.eq_of_testBit_eq
  intro i
  simp only [Nat.testBit_xor, Nat.testBit_land, Nat.testBit_lor]
  cases v.testBit i <;> cases a.testBit i <;> cases b.testBit i <;> simp

theorem unmask64_fst (v m : Nat) : (unmask64 v m).1 = (v &&& m != 0) := by
  unfold unmask64
  split <;> simp_all

theorem unmask64_snd_eq (v m : Nat) : (unmask64 v m).2 = v ^^^ (v &&& m) := by
  unfold unmask64
  split
  · rfl
  · rename_i h
    simp only [bne_iff_ne, ne_eq, not_not] at h
    simp [h]

theorem unmask64_snd_land (v m k : Nat) (hmk : m &&& k = 0) :
    (unmask64 v m).2 &&& k = v &&& k := by
  rw [unmask64_snd_eq]
  exact clear_preserves_disjoint v m k hmk

/-! ### Claim theorems -/

/-- C4: format resolution is the pure function: the implementation-defined
flexible format resolves to NV12 when usage contains camera-read or
camera-write and to XBGR8888 otherwise; the flexible YCbCr 4:2:0 format
always resolves to NV12; BGR565 resolves to RGB565; every other format
resolves to itself, and use flags are returned unchanged. -/
theorem C4_resolve_format (format use_flags : Nat) :
    (dmabuf_resolve_format_and_use_flags DRM_FORMAT_FLEX_IMPLEMENTATION_DEFINED use_flags).1
      = (if use_flags &&& (BO_USE_CAMERA_READ ||| BO_USE_CAMERA_WRITE) != 0 then
          DRM_FORMAT_NV12 else DRM_FORMAT_XBGR8888) ∧
    (dmabuf_resolve_format_and_use_flags DRM_FORMAT_FLEX_YCbCr_420_888 use_flags).1
      = DRM_FORMAT_NV12 ∧
    (dmabuf_resolve_format_and_use_flags DRM_FORMAT_BGR565 use_flags).1 = DRM_FORMAT_RGB565 ∧
    (format ≠ DRM_FORMAT_FLEX_IMPLEMENTATION_DEFINED →
      format ≠ DRM_FORMAT_FLEX_YCbCr_420_888 →
      format ≠ DRM_FORMAT_BGR565 →
      (dmabuf_resolve_format_and_use_flags format use_flags).1 = format) ∧
    (dmabuf_resolve_format_and_use_flags format use_flags).2 = use_flags := by
  refine ⟨?_, ?_, ?_, ?_, ?_⟩
  · simp [dmabuf_resolve_format_and_use_flags]
  · simp [dmabuf_resolve_format_and_use_flags,
      show DRM_FORMAT_FLEX_YCbCr_420_888 ≠ DRM_FORMAT_FLEX_IMPLEMENTATION_DEFINED from by decide]
  · simp [dmabuf_resolve_format_and_use_flags,
      show DRM_FORMAT_BGR565 ≠ DRM_FORMAT_FLEX_IMPLEMENTATION_DEFINED from by decide,
      show DRM_FORMAT_BGR565 ≠ DRM_FORMAT_FLEX_YCbCr_420_888 from by decide]
  · intro h1 h2 h3
    simp [dmabuf_resolve_format_and_use_flags, h1, h2, h3]
  · simp [dmabuf_resolve_format_and_use_flags]

/-- C4 witness: a format outside the three special cases resolves to itself
with unchanged use flags. -/
theorem C4_resolve_format_witness :
    (dmabuf_resolve_format_and_use_flags 1 0).1 = 1 ∧
    (dmabuf_resolve_format_and_use_flags 1 0).2 = 0 :=
  ⟨(C4_resolve_format 1 0).2.2.2.1 (by decide) (by decide) (by decide),
   (C4_resolve_format 1 0).2.2.2.2⟩

/-- C10: dmabuf_bo_import on a buffer object whose private data is already
set returns -EINVAL and leaves the buffer object unchanged (and duplicates
nothing); when the private data is empty it duplicates one caller-supplied
plane descriptor per plane (originals are never closed) and succeeds. -/
theorem C10_import_guard (bo : ImportBo) (dataFds l : List Nat) :
    (bo.privFds = some l → dmabuf_bo_import bo dataFds = (-22, bo, [], [])) ∧
    (bo.privFds = none →
      (dmabuf_bo_import bo dataFds).1 = 0 ∧
      (dmabuf_bo_import bo dataFds).2.1.privFds =
        some ((List.range bo.num_planes).map fun p => dataFds.getD p 0) ∧
      (dmabuf_bo_import bo dataFds).2.1.num_planes = bo.num_planes ∧
      (dmabuf_bo_import bo dataFds).2.2.1.length = bo.num_planes ∧
      (∀ p, p < bo.num_planes →
        (dmabuf_bo_import bo dataFds).2.2.1.getD p 0 = dataFds.getD p 0) ∧
      (dmabuf_bo_import bo dataFds).2.2.2 = []) := by
  constructor
  · intro h
    simp [dmabuf_bo_import, h]
  · intro h
    refine ⟨?_, ?_, ?_, ?_, ?_, ?_⟩ <;>
      simp [dmabuf_bo_import, h, List.getD_eq_getElem?_getD, List.getElem?_map,
        List.getElem?_range]
    intro p hp
    simp [List.getElem?_range, hp]

/-- C10 witness: the guard rejects a populated buffer object and the empty
case duplicates one descriptor per plane. -/
theorem C10_import_guard_witness :
    dmabuf_bo_import ⟨some [3], 1⟩ [7] = (-22, ⟨some [3], 1⟩, [], []) ∧
    (dmabuf_bo_import ⟨none, 2⟩ [4, 5]).1 = 0 ∧
    (dmabuf_bo_import ⟨none, 2⟩ [4, 5]).2.2.1.length = 2 ∧
    (dmabuf_bo_import ⟨none, 2⟩ [4, 5]).2.2.2 = [] :=
  ⟨(C10_import_guard ⟨some [3], 1⟩ [7] [3]).1 rfl,
   ((C10_import_guard ⟨none, 2⟩ [4, 5] []).2 rfl).1,
   ((C10_import_guard ⟨none, 2⟩ [4, 5] []).2 rfl).2.2.2.1,
   ((C10_import_guard ⟨none, 2⟩ [4, 5] []).2 rfl).2.2.2.2.2⟩

/-- C5: with staging active, a map with read intent copies the real buffer
into the staging buffer before returning, a write-only map skips the
pre-copy, an unmap after an access that included writes copies the staging
buffer back into the real buffer before unmapping, and a map/unmap cycle
whose map_flags exclude write never copies staging contents back to the real
buffer. -/
theorem C5_staging_map_unmap (staging_size map_flags w h : Nat)
    (hstag : staging_size ≠ 0) :
    (map_flags &&& BO_MAP_READ ≠ 0 →
      dri_bo_map_events staging_size map_flags w h true = [.copyRealToStaging w h]) ∧
    (map_flags &&& BO_MAP_READ = 0 →
      dri_bo_map_events staging_size map_flags w h true = []) ∧
    (map_flags &&& BO_MAP_WRITE ≠ 0 →
      dri_bo_unmap_events staging_size map_flags w h true =
        [.copyStagingToReal w h, .unmapStaging]) ∧
    (map_flags &&& BO_MAP_WRITE = 0 →
      ∀ w2 h2, MapEvent.copyStagingToReal w2 h2 ∉
        dri_bo_map_events staging_size map_flags w h true ++
        dri_bo_unmap_events staging_size map_flags w h true) := by
  refine ⟨?_, ?_, ?_, ?_⟩
  · intro h1
    simp [dri_bo_map_events, hbm_sync_events, h1, hstag]
  · intro h1
    simp [dri_bo_map_events, h1]
  · intro h1
    simp [dri_bo_unmap_events, hbm_sync_events, h1, hstag]
  · intro h1 w2 h2
    by_cases hr : map_flags &&& BO_MAP_READ = 0 <;>
      simp [dri_bo_map_events, dri_bo_unmap_events, hbm_sync_events, h1, hr, hstag]

/-- C5 witness: a read-write cycle on a staged buffer at a concrete input. -/
theorem C5_staging_map_unmap_witness :
    dri_bo_map_events 12 1 4 2 true = [.copyRealToStaging 4 2] ∧
    dri_bo_unmap_events 12 3 4 2 true = [.copyStagingToReal 4 2, .unmapStaging] :=
  ⟨(C5_staging_map_unmap 12 1 4 2 (by decide)).1 (by decide),
   (C5_staging_map_unmap 12 3 4 2 (by decide)).2.2.1 (by decide)⟩

/-- Every poll call issued by the wait_resource retry loop uses the constant
infinite timeout. -/
theorem wait_resource_run_timeouts (polls : List PollResult) :
    ∀ t ∈ (wait_resource_run polls).1, t = -1 := by
  induction polls with
  | nil => simp [wait_resource_run]
  | cons r rest ih =>
    cases r with
    | ready m => simp [wait_resource_run, wait_poll_timeout]
    | timedOut => simp [wait_resource_run, wait_poll_timeout]
    | failed e =>
      by_cases he : e = EINTR ∨ e = EAGAIN
      · rcases he with he | he <;>
          simpa [wait_resource_run, wait_poll_timeout, he] using ih
      · push_neg at he
        simp [wait_resource_run, wait_poll_timeout, he.1, he.2]

/-- The retry loop never returns failure while it sees only retryable
interruptions or a successful poll. -/
theorem wait_resource_run_no_fail (polls : List PollResult)
    (h : ∀ r ∈ polls, r = .ready true ∨ ∃ e, r = .failed e ∧ (e = EINTR ∨ e = EAGAIN)) :
    (wait_resource_run polls).2 ≠ some false := by
  induction polls with
  | nil => simp [wait_resource_run]
  | cons r rest ih =>
    rcases h r (by simp) with hr | ⟨e, hr, he⟩
    · subst hr
      simp [wait_resource_run]
    · subst hr
      rcases he with he | he <;>
        simpa [wait_resource_run, he] using ih fun r2 h2 => h r2 (by simp [h2])

/-- C6: the implicit-fence wait polls with an infinite timeout, retries on
every EINTR or EAGAIN interruption rather than returning failure, returns
failure only when a non-retryable outcome occurs, and returns success
immediately (issuing no poll) when no fence descriptor is attached. -/
theorem C6_wait_resource (polls rest : List PollResult) (e : Nat) :
    wait_resource false polls = ([], some true) ∧
    (∀ t ∈ (wait_resource true polls).1, t = -1) ∧
    ((e = EINTR ∨ e = EAGAIN) →
      (wait_resource true (.failed e :: rest)).2 = (wait_resource true rest).2) ∧
    ((∀ r ∈ polls, r = .ready true ∨ ∃ e2, r = .failed e2 ∧ (e2 = EINTR ∨ e2 = EAGAIN)) →
      (wait_resource true polls).2 ≠ some false) := by
  refine ⟨rfl, ?_, ?_, ?_⟩
  · simpa [wait_resource] using wait_resource_run_timeouts polls
  · intro he
    rcases he with he | he <;> simp [wait_resource, wait_resource_run, he]
  · intro h
    simpa [wait_resource] using wait_resource_run_no_fail polls h

/-- C6 witness: two retryable interruptions followed by a ready poll. -/
theorem C6_wait_resource_witness :
    (wait_resource true [.failed EINTR, .ready true]).2 = (wait_resource true [.ready true]).2 ∧
    (∀ t ∈ (wait_resource true [.failed EINTR, .ready true]).1, t = -1) ∧
    (wait_resource true [.failed EINTR, .ready true]).2 ≠ some false :=
  ⟨(C6_wait_resource [.failed EINTR, .ready true] [.ready true] EINTR).2.2.1 (Or.inl rfl),
   (C6_wait_resource [.failed EINTR, .ready true] [] 0).2.1,
   (C6_wait_resource [.failed EINTR, .ready true] [] 0).2.2.2 (by
      intro r hr
      simp only [List.mem_cons, List.not_mem_nil, or_false] at hr
      rcases hr with hr | hr
      · exact Or.inr ⟨EINTR, hr, Or.inl rfl⟩
      · exact Or.inl hr)⟩

/-! ### Lemmas about the memory-type selection loop -/

/-- Any value returned by the selection loop other than the initial best is a
list element that passed the required/disallowed filter. -/
theorem pick_best_mem (r d p : Nat) (mts : List Nat) :
    ∀ best : Int, pick_best r d p best mts = best ∨
      ∃ mt ∈ mts, mt_passes r d mt = true ∧ pick_best r d p best mts = (mt : Int) := by
  induction mts with
  | nil => intro best; left; rfl
  | cons mt rest ih =>
    intro best
    by_cases hp : mt_passes r d mt = true
    · by_cases hpref : (mt &&& p != 0) = true
      · right
        exact ⟨mt, by simp, hp, by simp [pick_best, hp, hpref]⟩
      · by_cases hb : (best == 0) = true
        · by_cases hp0 : (p == 0) = true
          · right
            exact ⟨mt, by simp, hp, by simp [pick_best, hp, hpref, hb, hp0]⟩
          · rcases ih (mt : Int) with h | ⟨mt2, hmem, hp2, heq⟩
            · right
              exact ⟨mt, by simp, hp, by simp [pick_best, hp, hpref, hb, hp0, h]⟩
            · right
              exact ⟨mt2, by simp [hmem], hp2, by simp [pick_best, hp, hpref, hb, hp0, heq]⟩
        · rcases ih best with h | ⟨mt2, hmem, hp2, heq⟩
          · left
            simp [pick_best, hp, hpref, hb, h]
          · right
            exact ⟨mt2, by simp [hmem], hp2, by simp [pick_best, hp, hpref, hb, heq]⟩
    · rcases ih best with h | ⟨mt2, hmem, hp2, heq⟩
      · left
        simp [pick_best, hp, h]
      · right
        exact ⟨mt2, by simp [hmem], hp2, by simp [pick_best, hp, heq]⟩

/-- If every enumerated memory type fails the filter, the loop returns its
initial best unchanged. -/
theorem pick_best_all_fail (r d p : Nat) (mts : List Nat)
    (h : ∀ mt ∈ mts, mt_passes r d mt = false) :
    ∀ best : Int, pick_best r d p best mts = best := by
  induction mts with
  | nil => intro best; rfl
  | cons mt rest ih =>
    intro best
    have h1 : mt_passes r d mt = false := h mt (by simp)
    have h2 : ∀ m ∈ rest, mt_passes r d m = false := fun m hm => h m (by simp [hm])
    simp [pick_best, h1, ih h2]

/-- With overlay usage the constraints always require LOCAL and disallow
CACHED, whatever the modifier and the rest of the flags. -/
theorem pick_constraints_overlay (modifier f : Nat) (hov : use_overlay f = true) :
    HBM_MEMORY_TYPE_LOCAL &&& (pick_constraints modifier f).required = HBM_MEMORY_TYPE_LOCAL ∧
    (pick_constraints modifier f).disallowed = HBM_MEMORY_TYPE_CACHED := by
  unfold pick_constraints
  by_cases hsw : use_sw f = true <;>
    by_cases hmod : (modifier == DRM_FORMAT_MOD_LINEAR && prefer_map f) = true <;>
      simp [hov, hsw, hmod] <;> constructor <;> decide

/-- A successful pick returns the staging decision computed from the
constraints, and a best taken from the list after passing the filter. -/
theorem pick_memory_type_some (mts : List Nat) (modifier f mt : Nat) (s : Bool)
    (h : pick_memory_type mts modifier f = some (mt, s)) :
    s = (pick_constraints modifier f).useStaging ∧
    ∃ m ∈ mts,
      mt_passes (pick_constraints modifier f).required
        (pick_constraints modifier f).disallowed m = true ∧ mt = m := by
  unfold pick_memory_type at h
  by_cases hb : (pick_best (pick_constraints modifier f).required
      (pick_constraints modifier f).disallowed
      (pick_constraints modifier f).preferred (-1) mts == -1) = true
  · simp [hb] at h
  · simp only [hb, if_neg, Bool.not_eq_true, if_false] at h
    rcases pick_best_mem (pick_constraints modifier f).required
        (pick_constraints modifier f).disallowed
        (pick_constraints modifier f).preferred mts (-1) with heq | ⟨m, hmem, hpass, heq⟩
    · rw [heq] at hb
      simp at hb
    · rw [heq] at h
      simp only [Option.some.injEq, Prod.mk.injEq, Int.toNat_natCast] at h
      exact ⟨h.2.symm, m, hmem, hpass, h.1.symm⟩

/-- C7: for every request whose usage includes scanout or cursor, the chosen
memory type has the LOCAL flag and lacks the CACHED flag, and if no
enumerated memory type satisfies the required and disallowed flag
constraints, selection fails. -/
theorem C7_overlay_selection (use_flags modifier mt : Nat) (s : Bool) (mts : List Nat)
    (hov : use_overlay use_flags = true) :
    (pick_memory_type mts modifier use_flags = some (mt, s) →
      mt ∈ mts ∧ mt &&& HBM_MEMORY_TYPE_LOCAL = HBM_MEMORY_TYPE_LOCAL ∧
      mt &&& HBM_MEMORY_TYPE_CACHED = 0) ∧
    ((∀ m ∈ mts, mt_passes (pick_constraints modifier use_flags).required
        (pick_constraints modifier use_flags).disallowed m = false) →
      pick_memory_type mts modifier use_flags = none) := by
  constructor
  · intro h
    obtain ⟨-, m, hmem, hpass, hmt⟩ := pick_memory_type_some mts modifier use_flags mt s h
    subst hmt
    obtain ⟨hreq, hdis⟩ := pick_constraints_overlay modifier use_flags hov
    unfold mt_passes at hpass
    simp only [Bool.and_eq_true, beq_iff_eq] at hpass
    refine ⟨hmem, ?_, ?_⟩
    · exact land_eq_of_submask mt (pick_constraints modifier use_flags).required
        HBM_MEMORY_TYPE_LOCAL hpass.1 hreq
    · rw [← hdis]
      exact hpass.2
  · intro h
    unfold pick_memory_type
    simp [pick_best_all_fail _ _ _ mts h]

/-- C7 witness: a scanout request over a single LOCAL memory type. -/
theorem C7_overlay_selection_witness :
    (1 : Nat) ∈ [1] ∧ (1 : Nat) &&& HBM_MEMORY_TYPE_LOCAL = HBM_MEMORY_TYPE_LOCAL ∧
    (1 : Nat) &&& HBM_MEMORY_TYPE_CACHED = 0 :=
  (C7_overlay_selection BO_USE_SCANOUT 0 1 false [1] (by decide)).1 (by decide)

/-- Under CPU usage the staging decision is exactly the negation of the
linear-and-prefer-map condition. -/
theorem pick_constraints_useStaging (modifier f : Nat) (hsw : use_sw f = true) :
    (pick_constraints modifier f).useStaging =
      !(modifier == DRM_FORMAT_MOD_LINEAR && prefer_map f) := by
  unfold pick_constraints
  by_cases hmod : (modifier == DRM_FORMAT_MOD_LINEAR && prefer_map f) = true <;>
    by_cases hov : use_overlay f = true <;>
      simp [hsw, hmod, hov] <;> split <;> rfl

/-- The code's direct-mapping preference, written out case by case. -/
theorem prefer_map_iff (f : Nat) :
    prefer_map f = true ↔
      ((use_overlay f = true ∧ use_sw_often f = true ∧ use_sw_read f = false) ∨
       (use_overlay f = false ∧ use_gpu f = true ∧ use_sw_often f = true) ∨
       (use_overlay f = false ∧ use_gpu f = false)) := by
  unfold prefer_map
  by_cases h1 : use_overlay f = true <;> by_cases h2 : use_gpu f = true <;>
    by_cases h3 : use_sw_often f = true <;> by_cases h4 : use_sw_read f = true <;>
      simp_all

/-- C1 counterexample: a scanout buffer with often CPU-read usage and a
linear modifier.  The spec's frequency rule (often CPU access combined with
overlay usage prefers direct mapping) asks for use_staging = false, but
prefer_map additionally requires the absence of CPU-read usage, so
pick_memory_type selects staging. -/
theorem C1_frequency_rule_counterexample :
    use_sw (BO_USE_SCANOUT ||| BO_USE_SW_READ_OFTEN) = true ∧
    prefer_map_spec_rule (BO_USE_SCANOUT ||| BO_USE_SW_READ_OFTEN) = true ∧
    prefer_map (BO_USE_SCANOUT ||| BO_USE_SW_READ_OFTEN) = false ∧
    pick_memory_type [HBM_MEMORY_TYPE_LOCAL] DRM_FORMAT_MOD_LINEAR
        (BO_USE_SCANOUT ||| BO_USE_SW_READ_OFTEN) =
      some (HBM_MEMORY_TYPE_LOCAL, true) := by
  decide

/-- C1 (amended): for CPU usage, pick_memory_type sets use_staging = false
exactly when the modifier is linear and the code's preference selects direct
mapping, where the preference is: overlay usage prefers direct mapping only
for often CPU access without any CPU-read flag; without overlay, GPU usage
prefers direct mapping for often CPU access; usage lacking both overlay and
GPU flags always prefers direct mapping. -/
theorem C1_staging_decision (use_flags modifier mt : Nat) (s : Bool) (mts : List Nat)
    (hsw : use_sw use_flags = true)
    (h : pick_memory_type mts modifier use_flags = some (mt, s)) :
    s = false ↔ (modifier = DRM_FORMAT_MOD_LINEAR ∧
      ((use_overlay use_flags = true ∧ use_sw_often use_flags = true ∧
          use_sw_read use_flags = false) ∨
       (use_overlay use_flags = false ∧ use_gpu use_flags = true ∧
          use_sw_often use_flags = true) ∨
       (use_overlay use_flags = false ∧ use_gpu use_flags = false))) := by
  obtain ⟨hs, -⟩ := pick_memory_type_some mts modifier use_flags mt s h
  subst hs
  rw [pick_constraints_useStaging modifier use_flags hsw, ← prefer_map_iff]
  by_cases hm : modifier = DRM_FORMAT_MOD_LINEAR <;>
    by_cases hp : prefer_map use_flags = true <;>
      simp [hm, hp, DRM_FORMAT_MOD_LINEAR]

/-- C1 witness: a rarely-written CPU-only buffer with a linear modifier is
directly mapped. -/
theorem C1_staging_decision_witness :
    (false = false ↔ ((0 : Nat) = DRM_FORMAT_MOD_LINEAR ∧
      ((use_overlay BO_USE_SW_WRITE_RARELY = true ∧
          use_sw_often BO_USE_SW_WRITE_RARELY = true ∧
          use_sw_read BO_USE_SW_WRITE_RARELY = false) ∨
       (use_overlay BO_USE_SW_WRITE_RARELY = false ∧
          use_gpu BO_USE_SW_WRITE_RARELY = true ∧
          use_sw_often BO_USE_SW_WRITE_RARELY = true) ∨
       (use_overlay BO_USE_SW_WRITE_RARELY = false ∧
          use_gpu BO_USE_SW_WRITE_RARELY = false)))) :=
  C1_staging_decision BO_USE_SW_WRITE_RARELY 0 10 false [10] (by decide) (by decide)

/-- The residual flags after all five check-and-clear steps equal the input
flags with every recognized bit cleared. -/
theorem create2_l5_eq (use_flags : Nat) :
    create2_l5 use_flags = use_flags ^^^ (use_flags &&& CREATE2_RECOGNIZED_MASK) := by
  unfold create2_l5 create2_l4 create2_l3 create2_l2 create2_l1
  simp only [unmask64_snd_eq, clear_chain]
  have hmask : BO_USE_SW_MASK ||| BO_USE_SCANOUT |||
      (BO_USE_CAMERA_READ ||| BO_USE_CAMERA_WRITE) |||
      (BO_USE_HW_VIDEO_DECODER ||| BO_USE_HW_VIDEO_ENCODER) |||
      (BO_USE_CURSOR ||| BO_USE_TEXTURE ||| BO_USE_RENDERING) =
      CREATE2_RECOGNIZED_MASK := by decide
  rw [hmask]

/-- Codec flags in the request survive the three earlier clears, so the codec
check-and-clear hits. -/
theorem create2_codecHit_of_flags (use_flags : Nat)
    (hcodec : use_flags &&& (BO_USE_HW_VIDEO_DECODER ||| BO_USE_HW_VIDEO_ENCODER) ≠ 0) :
    create2_codecHit use_flags = true := by
  unfold create2_codecHit create2_l3 create2_l2 create2_l1
  rw [unmask64_fst, unmask64_snd_land _ _ _ (by decide), unmask64_snd_land _ _ _ (by decide),
    unmask64_snd_land _ _ _ (by decide)]
  simpa using hcodec

/-- C2 counterexample: camera-write plus hw-video-decoder at 640 x 480 with
NV12.  The camera rule asks for align(640,32) * align(480,16) * 3 / 2 =
460800, the codec rule for 4096; the larger is 460800, yet the allocation is
issued with size alignment 4096 because the codec branch overwrites the
camera value. -/
theorem C2_align_counterexample :
    dmabuf_bo_create2 true 640 460800 640 480 DRM_FORMAT_NV12
        (BO_USE_CAMERA_WRITE ||| BO_USE_HW_VIDEO_DECODER) false
      = .alloc true 640 4096 462848 ∧
    max (((ALIGN 640 32 * ALIGN 480 16 * 3) % U32) >>> 1) 4096 = 460800 ∧
    (4096 : Nat) ≠ 460800 := by
  decide

/-- C2 (amended): when the usage has both a camera flag and a codec flag and
height is above one, the codec rule overwrites the camera rule, so the size
alignment applied to the total allocation size is the fixed codec granule
4096 (not the larger of the two rules). -/
theorem C2_camera_codec_align (drvOk : Bool)
    (stride0 totalSize width height format use_flags : Nat) (testOnly : Bool)
    (cma : Bool) (st sa len : Nat)
    (hcam : use_flags &&& (BO_USE_CAMERA_READ ||| BO_USE_CAMERA_WRITE) ≠ 0)
    (hcodec : use_flags &&& (BO_USE_HW_VIDEO_DECODER ||| BO_USE_HW_VIDEO_ENCODER) ≠ 0)
    (hh : 1 < height)
    (halloc : dmabuf_bo_create2 drvOk stride0 totalSize width height format use_flags testOnly
        = .alloc cma st sa len) :
    sa = 4096 ∧ len = ALIGN totalSize 4096 := by
  have hhit := create2_codecHit_of_flags use_flags hcodec
  have hsa : create2_sizeAlign width height use_flags = 4096 := by
    unfold create2_sizeAlign
    simp [hhit]
  unfold dmabuf_bo_create2 at halloc
  split at halloc
  · exact Create2Result.noConfusion halloc
  · split at halloc
    · exact Create2Result.noConfusion halloc
    · split at halloc
      · exact Create2Result.noConfusion halloc
      · split at halloc
        · exact Create2Result.noConfusion halloc
        · simp only [Create2Result.alloc.injEq] at halloc
          rw [← halloc.2.2.1, ← halloc.2.2.2, hsa]
          exact ⟨rfl, rfl⟩

/-- C2 witness: the amended rule evaluated at the counterexample input. -/
theorem C2_camera_codec_align_witness :
    (4096 : Nat) = 4096 ∧ (462848 : Nat) = ALIGN 460800 4096 :=
  C2_camera_codec_align true 640 460800 640 480 DRM_FORMAT_NV12
    (BO_USE_CAMERA_WRITE ||| BO_USE_HW_VIDEO_DECODER) false true 640 4096 462848
    (by decide) (by decide) (by decide) (by decide)

/-- C3: for a supported format whose usage still has bits set after all
recognized flag groups are cleared, dmabuf_bo_create2 fails with -EINVAL and
never reaches the heap allocation call. -/
theorem C3_residual_rejected (drvOk : Bool)
    (stride0 totalSize width height format use_flags : Nat) (testOnly : Bool)
    (hfmt : is_format_supported format = true)
    (hres : use_flags ^^^ (use_flags &&& CREATE2_RECOGNIZED_MASK) ≠ 0) :
    dmabuf_bo_create2 drvOk stride0 totalSize width height format use_flags testOnly
      = .err (-22) ∧
    ∀ cma st sa len,
      dmabuf_bo_create2 drvOk stride0 totalSize width height format use_flags testOnly ≠
        .alloc cma st sa len := by
  have hl5 : (create2_l5 use_flags != 0) = true := by
    rw [create2_l5_eq]
    simpa using hres
  have hmain : dmabuf_bo_create2 drvOk stride0 totalSize width height format use_flags testOnly
      = .err (-22) := by
    unfold dmabuf_bo_create2
    by_cases hd : drvOk = false <;> simp [hfmt, hd, hl5]
  refine ⟨hmain, ?_⟩
  intro cma st sa len h
  rw [hmain] at h
  exact Create2Result.noConfusion h

/-- C3 witness: a protected-usage request (a bit this backend does not
recognize) with a supported format is rejected before allocation. -/
theorem C3_residual_rejected_witness :
    dmabuf_bo_create2 true 16 4096 4 4 DRM_FORMAT_NV12 BO_USE_PROTECTED false = .err (-22) :=
  (C3_residual_rejected true 16 4096 4 4 DRM_FORMAT_NV12 BO_USE_PROTECTED false
    (by decide) (by decide)).1

/-! ### Lemmas for the metadata and staging-layout claims -/

theorem getD_map_range (n i : Nat) (f : Nat → Nat) (hi : i < n) :
    ((List.range n).map f).getD i 0 = f i := by
  rw [List.getD_eq_getElem?_getD]
  simp [List.getElem?_map, List.getElem?_range, hi]

/-- Wrapped machine subtraction agrees with Nat subtraction when the operands
are ordered and below 2 ^ 32. -/
theorem wrap_sub_small (o nxt : Nat) (h1 : o ≤ nxt) (h2 : nxt < U32) :
    (((nxt + U64 - o) % U64) % U32 = nxt - o) ∧ ((nxt + U32 - o) % U32 = nxt - o) := by
  have hA : U32 = 4294967296 := by norm_num [U32]
  have hB : U64 = 18446744073709551616 := by norm_num [U64]
  rw [hA] at h2
  rw [hA, hB]
  omega

theorem init_bo_metadata_sizes_getD (size modifier : Nat) (offsets strides : List Nat)
    (i : Nat) (hi : i < offsets.length) :
    (init_bo_metadata size modifier offsets strides).sizes.getD i 0 =
      (((if i + 1 < offsets.length then offsets.getD (i + 1) 0 else size)
        + U64 - offsets.getD i 0) % U64) % U32 := by
  unfold init_bo_metadata
  exact getD_map_range _ _ _ hi

theorem import_meta_sizes_getD (modifier : Nat) (offsets strides : List Nat)
    (dmabufSize i : Nat) (hi : i < offsets.length) :
    (import_into_minigbm_meta modifier offsets strides dmabufSize).sizes.getD i 0 =
      if i + 1 < offsets.length then
        (offsets.getD (i + 1) 0 + U32 - offsets.getD i 0) % U32
      else ((dmabufSize + U64 - offsets.getD i 0) % U64) % U32 := by
  unfold import_into_minigbm_meta
  exact getD_map_range _ _ _ hi

/-- C8: every published plane-size array satisfies size i = offset (i+1) -
offset i for every plane before the last and size last = total_size - offset
last, both for metadata built by init_bo_metadata (allocation path) and by
the DRI import path. -/
theorem C8_plane_size_invariant (modifier total : Nat) (offsets strides : List Nat)
    (hmono : ∀ i, i + 1 < offsets.length → offsets.getD i 0 ≤ offsets.getD (i + 1) 0)
    (hb : ∀ i, i < offsets.length → offsets.getD i 0 ≤ total)
    (hbound : total < U32) :
    (∀ i, i + 1 < offsets.length →
      (init_bo_metadata total modifier offsets strides).sizes.getD i 0
        = offsets.getD (i + 1) 0 - offsets.getD i 0 ∧
      (import_into_minigbm_meta modifier offsets strides total).sizes.getD i 0
        = offsets.getD (i + 1) 0 - offsets.getD i 0) ∧
    (∀ i, i + 1 = offsets.length →
      (init_bo_metadata total modifier offsets strides).sizes.getD i 0
        = total - offsets.getD i 0 ∧
      (import_into_minigbm_meta modifier offsets strides total).sizes.getD i 0
        = total - offsets.getD i 0) ∧
    (init_bo_metadata total modifier offsets strides).total_size = total ∧
    (import_into_minigbm_meta modifier offsets strides total).total_size = total := by
  refine ⟨?_, ?_, rfl, rfl⟩
  · intro i hi
    have hii : i < offsets.length := by omega
    have h1 := hmono i hi
    have h2 : offsets.getD (i + 1) 0 < U32 :=
      lt_of_le_of_lt (hb (i + 1) hi) hbound
    constructor
    · rw [init_bo_metadata_sizes_getD total modifier offsets strides i hii, if_pos hi]
      exact (wrap_sub_small _ _ h1 h2).1
    · rw [import_meta_sizes_getD modifier offsets strides total i hii, if_pos hi]
      exact (wrap_sub_small _ _ h1 h2).2
  · intro i hi
    have hii : i < offsets.length := by omega
    have hnot : ¬ i + 1 < offsets.length := by omega
    have h1 := hb i hii
    constructor
    · rw [init_bo_metadata_sizes_getD total modifier offsets strides i hii, if_neg hnot]
      exact (wrap_sub_small _ _ h1 hbound).1
    · rw [import_meta_sizes_getD modifier offsets strides total i hii, if_neg hnot]
      exact (wrap_sub_small _ _ h1 hbound).1

/-- C8 witness: a two-plane layout with offsets 0 and 100 in a 150-byte
buffer. -/
theorem C8_plane_size_invariant_witness :
    (init_bo_metadata 150 0 [0, 100] [16, 16]).sizes.getD 0 0 = 100 - 0 ∧
    (import_into_minigbm_meta 0 [0, 100] [16, 16] 150).sizes.getD 1 0 = 150 - 100 := by
  have hmono : ∀ i, i + 1 < ([0, 100] : List Nat).length →
      ([0, 100] : List Nat).getD i 0 ≤ ([0, 100] : List Nat).getD (i + 1) 0 := by
    intro i hi
    have h2 : i + 1 < 2 := by simpa using hi
    have h0 : i = 0 := by omega
    subst h0
    decide
  have hb : ∀ i, i < ([0, 100] : List Nat).length → ([0, 100] : List Nat).getD i 0 ≤ 150 := by
    intro i hi
    have h2 : i < 2 := by simpa using hi
    interval_cases i <;> decide
  exact ⟨((C8_plane_size_invariant 0 150 [0, 100] [16, 16] hmono hb (by decide)).1 0
      (by decide)).1,
    ((C8_plane_size_invariant 0 150 [0, 100] [16, 16] hmono hb (by decide)).2.1 1
      (by decide)).2⟩

/-- The standard size of one plane: drv_size_from_format applied to the
standard stride of the plane. -/
def std_plane_size (strideF : Nat → Nat → Nat → Nat) (sizeF : Nat → Nat → Nat → Nat → Nat)
    (fmt width height p : Nat) : Nat :=
  sizeF fmt (strideF fmt width p) height p

/-- Sum of the standard sizes of n planes starting at the given plane. -/
def std_size_sum (strideF : Nat → Nat → Nat → Nat) (sizeF : Nat → Nat → Nat → Nat → Nat)
    (fmt width height plane n : Nat) : Nat :=
  Finset.sum (Finset.range n) fun j =>
    std_plane_size strideF sizeF fmt width height (plane + j)

theorem std_size_sum_shift (strideF : Nat → Nat → Nat → Nat)
    (sizeF : Nat → Nat → Nat → Nat → Nat) (fmt width height plane i : Nat) :
    std_size_sum strideF sizeF fmt width height (plane + 1) i +
      std_plane_size strideF sizeF fmt width height plane =
      std_size_sum strideF sizeF fmt width height plane (i + 1) := by
  unfold std_size_sum
  rw [Finset.sum_range_succ']
  congr 1
  apply Finset.sum_congr rfl
  intro j hj
  congr 1
  omega

/-- The staging-layout loop produces the uint32-wrapped running sums of the
standard plane sizes as offsets, the standard strides, and the wrapped total
as final offset, whenever the incoming offset is a uint32 value. -/
theorem staging_go_spec (strideF : Nat → Nat → Nat → Nat)
    (sizeF : Nat → Nat → Nat → Nat → Nat) (fmt width height : Nat) :
    ∀ (n offset plane : Nat), offset < U32 →
      (staging_go strideF sizeF fmt width height offset plane n).2.2 =
        (offset + std_size_sum strideF sizeF fmt width height plane n) % U32 ∧
      ∀ i, i < n →
        (staging_go strideF sizeF fmt width height offset plane n).1.getD i 0 =
          (offset + std_size_sum strideF sizeF fmt width height plane i) % U32 ∧
        (staging_go strideF sizeF fmt width height offset plane n).2.1.getD i 0 =
          strideF fmt width (plane + i) := by
  intro n
  induction n with
  | zero =>
    intro offset plane hoff
    refine ⟨by simp [staging_go, std_size_sum, Nat.mod_eq_of_lt hoff], ?_⟩
    intro i hi
    omega
  | succ n ih =>
    intro offset plane hoff
    have hoff2 : (offset + std_plane_size strideF sizeF fmt width height plane) % U32 < U32 :=
      Nat.mod_lt _ (by norm_num [U32])
    constructor
    · have h1 := (ih ((offset + std_plane_size strideF sizeF fmt width height plane) % U32)
        (plane + 1) hoff2).1
      calc (staging_go strideF sizeF fmt width height offset plane (n + 1)).2.2
          = (staging_go strideF sizeF fmt width height
              ((offset + std_plane_size strideF sizeF fmt width height plane) % U32)
              (plane + 1) n).2.2 := rfl
        _ = ((offset + std_plane_size strideF sizeF fmt width height plane) % U32 +
              std_size_sum strideF sizeF fmt width height (plane + 1) n) % U32 := h1
        _ = (offset + std_size_sum strideF sizeF fmt width height plane (n + 1)) % U32 := by
              rw [Nat.mod_add_mod]
              congr 1
              rw [← std_size_sum_shift strideF sizeF fmt width height plane n]
              omega
    · intro i hi
      cases i with
      | zero =>
        constructor
        · simp [staging_go, std_size_sum, Nat.mod_eq_of_lt hoff]
        · simp [staging_go]
      | succ i2 =>
        have hi2 : i2 < n := by omega
        have h2 := (ih ((offset + std_plane_size strideF sizeF fmt width height plane) % U32)
          (plane + 1) hoff2).2 i2 hi2
        constructor
        · have hstep : (staging_go strideF sizeF fmt width height offset plane
              (n + 1)).1.getD (i2 + 1) 0 =
              (staging_go strideF sizeF fmt width height
                ((offset + std_plane_size strideF sizeF fmt width height plane) % U32)
                (plane + 1) n).1.getD i2 0 := rfl
          rw [hstep, h2.1, Nat.mod_add_mod]
          congr 1
          rw [← std_size_sum_shift strideF sizeF fmt width height plane i2]
          omega
        · have hstep : (staging_go strideF sizeF fmt width height offset plane
              (n + 1)).2.1.getD (i2 + 1) 0 =
              (staging_go strideF sizeF fmt width height
                ((offset + std_plane_size strideF sizeF fmt width height plane) % U32)
                (plane + 1) n).2.1.getD i2 0 := rfl
          rw [hstep, h2.2, show plane + 1 + i2 = plane + (i2 + 1) from by omega]

/-- A successful create_resource that selected staging holds exactly the
layout computed by create_resource_staging (no dependence on the modifier or
the memory-type list). -/
theorem create_resource_some_staging (strideF : Nat → Nat → Nat → Nat)
    (sizeF : Nat → Nat → Nat → Nat → Nat) (mts : List Nat)
    (modifier use_flags fmt extentBufSize width height planeCount : Nat) (info : StagingInfo)
    (h : create_resource strideF sizeF mts modifier use_flags fmt extentBufSize width height
        planeCount = some (some info)) :
    info = create_resource_staging strideF sizeF fmt extentBufSize width height planeCount := by
  unfold create_resource at h
  rcases hp : pick_memory_type mts modifier use_flags with _ | ⟨mt, us⟩
  · rw [hp] at h
    exact absurd h (by simp)
  · rw [hp] at h
    cases us
    · simp at h
    · simp only [if_pos, Option.some.injEq] at h
      exact h.symm

/-- C9: whenever staging is selected for an image-format buffer, the staging
offsets are the uint32 running sums of the standard per-plane sizes starting
at 0, the staging strides are the standard strides, and staging_size is the
uint32-wrapped sum of all standard plane sizes (exactly the sum whenever that
sum fits a uint32); for the opaque byte-buffer format the staging size is the
requested byte length stored as uint32 (exactly the length whenever it fits);
and the staging layout does not depend on the real buffer's modifier. -/
theorem C9_staging_layout (strideF : Nat → Nat → Nat → Nat)
    (sizeF : Nat → Nat → Nat → Nat → Nat) (mts : List Nat)
    (modifier modifier2 use_flags fmt extentBufSize width height planeCount : Nat)
    (info : StagingInfo)
    (h : create_resource strideF sizeF mts modifier use_flags fmt extentBufSize width height
        planeCount = some (some info)) :
    (fmt ≠ DRM_FORMAT_INVALID →
      (∀ i, i < planeCount →
        info.staging_offsets.getD i 0 =
          std_size_sum strideF sizeF fmt width height 0 i % U32 ∧
        info.staging_strides.getD i 0 = strideF fmt width i) ∧
      info.staging_size = std_size_sum strideF sizeF fmt width height 0 planeCount % U32 ∧
      (std_size_sum strideF sizeF fmt width height 0 planeCount < U32 →
        info.staging_size = std_size_sum strideF sizeF fmt width height 0 planeCount)) ∧
    (fmt = DRM_FORMAT_INVALID →
      info.staging_size = extentBufSize % U32 ∧
      (extentBufSize < U32 → info.staging_size = extentBufSize)) ∧
    (∀ mts2 info2, create_resource strideF sizeF mts2 modifier2 use_flags fmt extentBufSize
        width height planeCount = some (some info2) → info2 = info) := by
  have hinfo := create_resource_some_staging strideF sizeF mts modifier use_flags fmt
    extentBufSize width height planeCount info h
  refine ⟨?_, ?_, ?_⟩
  · intro hfmt
    rw [hinfo]
    unfold create_resource_staging
    rw [if_neg hfmt]
    have hs := staging_go_spec strideF sizeF fmt width height planeCount 0 0
      (by norm_num [U32])
    have hsize : (staging_go strideF sizeF fmt width height 0 0 planeCount).2.2 =
        std_size_sum strideF sizeF fmt width height 0 planeCount % U32 := by
      simpa using hs.1
    refine ⟨?_, hsize, ?_⟩
    · intro i hi
      have h2 := hs.2 i hi
      simpa using h2
    · intro hlt
      exact hsize.trans (Nat.mod_eq_of_lt hlt)
  · intro hfmt
    rw [hinfo]
    unfold create_resource_staging
    rw [if_pos hfmt]
    exact ⟨rfl, fun hlt => Nat.mod_eq_of_lt hlt⟩
  · intro mts2 info2 h2
    rw [hinfo, create_resource_some_staging strideF sizeF mts2 modifier2 use_flags fmt
      extentBufSize width height planeCount info2 h2]

/-- C9 witness: an NV12-shaped two-plane layout at 4 x 2 with staging
selected (GPU texture usage with rarely CPU reads); the plane-size sum fits a
uint32, so staging_size is the exact sum. -/
theorem C9_staging_layout_witness :
    (⟨[0, 8], [4, 4], 12⟩ : StagingInfo).staging_size =
      std_size_sum (fun _ w _ => w) (fun _ s h p => if p = 0 then s * h else s * h / 2)
        DRM_FORMAT_NV12 4 2 0 2 :=
  (((C9_staging_layout (fun _ w _ => w) (fun _ s h p => if p = 0 then s * h else s * h / 2)
      [1] 5 7 (BO_USE_SW_READ_RARELY ||| BO_USE_RENDERING) DRM_FORMAT_NV12 0 4 2 2
      ⟨[0, 8], [4, 4], 12⟩ (by decide)).1 (by decide)).2.2) (by decide)

end Minigbm
